import Mathlib

/-!
Shallow embedding of the authentication session layer of `rupesh2k/supabaseauth`.

The embedded code:
* `features/auth/types/auth.types.ts` — the data model (`User`, `AuthTokens`,
  `AuthState`, `AuthError`, `AuthResult`);
* `features/auth/context/AuthContext.tsx` — the Session Manager
  (`AuthProvider`: state initialisation on mount, `login`, `signup`,
  `logout`, `refreshAuth`, and the `onAuthStateChange` subscription);
* `features/auth/adapters/SupabaseAuthAdapter.ts` — the Supabase port
  (`signup`, `login`, `refreshToken`, `mapUser`, `mapTokens`, `handleError`);
* `lib/api/apiClient.ts` — the outbound API client whose request interceptor
  pulls a token through the registered getter.

Asynchronous effects are embedded as explicit state passing: each React
`setState` call becomes a function on `AuthState`, and an operation such as
`login` is the composition of its pre-await step (set `isLoading`) and its
post-await step (apply the port result).  JavaScript's single-threaded
cooperative scheduling is embedded by interleaving those atomic steps
explicitly.
-/

namespace SupabaseAuth

/-- `User` from auth.types.ts: id, email, emailVerified, optional metadata
(`Record<string, unknown>` rendered as an association list of strings). -/
structure User where
  id : String
  email : String
  emailVerified : Bool
  metadata : Option (List (String × String)) := none
  deriving Repr, DecidableEq

/-- `AuthTokens` from auth.types.ts: accessToken, optional refreshToken,
optional expiresAt. -/
structure AuthTokens where
  accessToken : String
  refreshToken : Option String := none
  expiresAt : Option Nat := none
  deriving Repr, DecidableEq

/-- `AuthError` from auth.types.ts (the `details` payload is dropped: it is
an opaque diagnostic value never inspected by the embedded code). -/
structure AuthError where
  code : String
  message : String
  deriving Repr, DecidableEq

/-- `AuthResult<T>` from auth.types.ts: a tagged union
`{success: true, data} | {success: false, error}`. -/
inductive AuthResult (α : Type) where
  | success (data : α)
  | failure (error : AuthError)
  deriving Repr, DecidableEq

/-- The `{ user, tokens }` payload of a successful `login`/`signup` port
result.  The TypeScript annotation declares `tokens: AuthTokens`, but the
value is produced by a dynamically-typed adapter behind the `AuthAdapter`
interface and is stored by the Session Manager straight into the nullable
`AuthState.tokens` slot, so the runtime field is embedded as optional —
this is exactly the "success carrying empty tokens" shape the spec's port
contract describes for verification-pending signup. -/
structure SessionPayload where
  user : User
  tokens : Option AuthTokens
  deriving Repr, DecidableEq

/-- `AuthState` from auth.types.ts: the Session Manager's stored state. -/
structure AuthState where
  user : Option User
  tokens : Option AuthTokens
  isLoading : Bool
  isAuthenticated : Bool
  deriving Repr, DecidableEq

/-- The initial `useState` value in AuthContext.tsx (lines 42–47):
`{user: null, tokens: null, isLoading: true, isAuthenticated: false}`. -/
def initialState : AuthState :=
  { user := none, tokens := none, isLoading := true, isAuthenticated := false }

/-- `setState((prev) => ({ ...prev, isLoading: b }))` — the functional
update used before a port call (`b = true`) and on a failed result
(`b = false`). -/
def setLoading (b : Bool) (s : AuthState) : AuthState :=
  { s with isLoading := b }

/-- The value returned to the caller by `login`/`signup`:
`{ success: boolean; error?: string }`. -/
structure OpReturn where
  success : Bool
  error : Option String
  deriving Repr, DecidableEq

/-- The post-await step of `AuthProvider.login` (AuthContext.tsx lines
106–119): on a successful port result replace the whole state with the
returned user/tokens, `isLoading=false`, `isAuthenticated=true`, and return
`{success: true}`; on a failed result keep the previous state with
`isLoading=false` and return `{success: false, error: message}`. -/
def loginSettle (s : AuthState) (r : AuthResult SessionPayload) :
    AuthState × OpReturn :=
  match r with
  | .success d =>
      ({ user := some d.user, tokens := d.tokens,
         isLoading := false, isAuthenticated := true },
       { success := true, error := none })
  | .failure e =>
      (setLoading false s, { success := false, error := some e.message })

/-- `AuthProvider.login` end to end: set `isLoading=true`, await the port,
apply the result. -/
def loginOp (s : AuthState) (r : AuthResult SessionPayload) :
    AuthState × OpReturn :=
  loginSettle (setLoading true s) r

/-- The post-await step of `AuthProvider.signup` (AuthContext.tsx lines
128–141); textually the same branching as `loginSettle`. -/
def signupSettle (s : AuthState) (r : AuthResult SessionPayload) :
    AuthState × OpReturn :=
  match r with
  | .success d =>
      ({ user := some d.user, tokens := d.tokens,
         isLoading := false, isAuthenticated := true },
       { success := true, error := none })
  | .failure e =>
      (setLoading false s, { success := false, error := some e.message })

/-- `AuthProvider.signup` end to end. -/
def signupOp (s : AuthState) (r : AuthResult SessionPayload) :
    AuthState × OpReturn :=
  signupSettle (setLoading true s) r

/-- The post-await step of `AuthProvider.logout` (AuthContext.tsx lines
149–156): the port result is not inspected; the state is unconditionally
cleared. -/
def logoutSettle (_s : AuthState) (_r : AuthResult Unit) : AuthState :=
  { user := none, tokens := none,
    isLoading := false, isAuthenticated := false }

/-- `AuthProvider.logout` end to end: set `isLoading=true`, await
`adapter.logout()` (result ignored), clear everything. -/
def logoutOp (s : AuthState) (r : AuthResult Unit) : AuthState :=
  logoutSettle (setLoading true s) r

/-- `AuthProvider.refreshAuth` (AuthContext.tsx lines 159–169): calls
`adapter.getCurrentUser()`; when the result is a success carrying a
(non-null) user it updates only `user` and sets `isAuthenticated=true`;
in every other case (failure, or success with null user) the state is left
untouched.  Nothing is returned to the caller. -/
def refreshAuthOp (s : AuthState) (r : AuthResult (Option User)) : AuthState :=
  match r with
  | .success (some u) => { s with user := some u, isAuthenticated := true }
  | .success none => s
  | .failure _ => s

/-- The payload of a successful `adapter.initialize()` restore:
`{ user, tokens } | null`. -/
structure RestorePayload where
  user : User
  tokens : AuthTokens
  deriving Repr, DecidableEq

/-- The mount-time `initializeAuth` handler (AuthContext.tsx lines 59–79):
`result.success && result.data` yields the authenticated state built from
the restored payload; any other result (failure, or success with null data)
yields the anonymous state with `isLoading=false`. -/
def restoreSettle (r : AuthResult (Option RestorePayload)) : AuthState :=
  match r with
  | .success (some d) =>
      { user := some d.user, tokens := some d.tokens,
        isLoading := false, isAuthenticated := true }
  | .success none =>
      { user := none, tokens := none,
        isLoading := false, isAuthenticated := false }
  | .failure _ =>
      { user := none, tokens := none,
        isLoading := false, isAuthenticated := false }

/-- The `onAuthStateChange` subscription handler (AuthContext.tsx lines
90–97): replaces the state with the notified user/tokens and computes
`isAuthenticated` as `user !== null`. -/
def authChangeSettle (u : Option User) (t : Option AuthTokens) : AuthState :=
  { user := u, tokens := t, isLoading := false, isAuthenticated := u.isSome }

/-! ### The Supabase adapter (SupabaseAuthAdapter.ts) -/

/-- The runtime JavaScript value of a Supabase user's `email_confirmed_at`
field: the property may be absent (`undefined`), explicitly `null`, or an
ISO timestamp string. -/
inductive JsTimestamp where
  | undef
  | jsNull
  | value (s : String)
  deriving Repr, DecidableEq

/-- JavaScript strict inequality `v !== null`: true for `undefined` and for
any string, false only for `null`. -/
def jsStrictNeNull (v : JsTimestamp) : Bool :=
  match v with
  | .jsNull => false
  | .undef => true
  | .value _ => true

/-- The user object inside a Supabase auth response, with the fields
`mapUser` reads. -/
structure SupabaseUser where
  id : String
  email : String
  email_confirmed_at : JsTimestamp
  user_metadata : Option (List (String × String)) := none
  deriving Repr, DecidableEq

/-- The session object inside a Supabase auth response, with the fields
`mapTokens` reads. -/
structure SupabaseSession where
  access_token : String
  refresh_token : Option String := none
  expires_at : Option Nat := none
  deriving Repr, DecidableEq

/-- `SupabaseAuthAdapter.mapUser` (lines 224–231):
`emailVerified` is computed as `email_confirmed_at !== null`. -/
def mapUser (su : SupabaseUser) : User :=
  { id := su.id, email := su.email,
    emailVerified := jsStrictNeNull su.email_confirmed_at,
    metadata := su.user_metadata }

/-- `SupabaseAuthAdapter.mapTokens` (lines 233–239). -/
def mapTokens (s : SupabaseSession) : AuthTokens :=
  { accessToken := s.access_token,
    refreshToken := s.refresh_token,
    expiresAt := s.expires_at }

/-- A JavaScript value caught at the adapter's error boundary, classified
the way `isSupabaseError` / `instanceof Error` classify it: an object with
a `message` property (a Supabase `AuthError`, carrying an optional numeric
HTTP `status`), an `Error` instance, or anything else. -/
inductive JsCaught where
  | objWithMessage (status : Option Nat) (message : String)
  | errInstance (message : String)
  | nonObject
  deriving Repr, DecidableEq

/-- `SupabaseAuthAdapter.handleError` (lines 241–272): a Supabase-shaped
error yields `code = error.status?.toString() || 'UNKNOWN'` with the raw
message; an `Error` instance yields `code = 'UNKNOWN'` with its message;
anything else yields `code = 'UNKNOWN'` with a generic message. -/
def handleError (e : JsCaught) : AuthError :=
  match e with
  | .objWithMessage (some n) msg => { code := toString n, message := msg }
  | .objWithMessage none msg => { code := "UNKNOWN", message := msg }
  | .errInstance msg => { code := "UNKNOWN", message := msg }
  | .nonObject => { code := "UNKNOWN", message := "An unknown error occurred" }

/-- The shape of a Supabase `signUp` / `signInWithPassword` response as the
adapter consumes it: `{ data: { user, session }, error }`. -/
structure SupabaseAuthResponse where
  user : Option SupabaseUser
  session : Option SupabaseSession
  error : Option JsCaught
  deriving Repr, DecidableEq

/-- `SupabaseAuthAdapter.signup` (lines 78–112): a provider error goes
through `handleError`; `!data.session || !data.user` yields the failure
`{code: 'NO_SESSION', message: 'Signup succeeded but no session. Check
email for verification.'}`; otherwise success with the mapped user and
tokens. -/
def supabaseSignup (resp : SupabaseAuthResponse) : AuthResult SessionPayload :=
  match resp.error with
  | some e => .failure (handleError e)
  | none =>
      match resp.session, resp.user with
      | some sess, some u => .success { user := mapUser u, tokens := some (mapTokens sess) }
      | _, _ =>
          .failure { code := "NO_SESSION",
                     message := "Signup succeeded but no session. Check email for verification." }

/-- `SupabaseAuthAdapter.login` (lines 48–76): a provider error goes
through `handleError`; a missing session or user yields the `NO_SESSION`
failure `'Login failed: no session returned'`; otherwise success with the
mapped user and tokens. -/
def supabaseLogin (resp : SupabaseAuthResponse) : AuthResult SessionPayload :=
  match resp.error with
  | some e => .failure (handleError e)
  | none =>
      match resp.session, resp.user with
      | some sess, some u => .success { user := mapUser u, tokens := some (mapTokens sess) }
      | _, _ =>
          .failure { code := "NO_SESSION",
                     message := "Login failed: no session returned" }

/-- The shape of a Supabase `refreshSession` response: `{ data: { session },
error }`. -/
structure SupabaseRefreshResponse where
  session : Option SupabaseSession
  error : Option JsCaught
  deriving Repr, DecidableEq

/-- `SupabaseAuthAdapter.refreshToken` (lines 154–176): a provider error
goes through `handleError`; a missing session yields the `NO_SESSION`
failure `'Token refresh failed'`; otherwise success with the mapped
tokens. -/
def supabaseRefreshToken (resp : SupabaseRefreshResponse) : AuthResult AuthTokens :=
  match resp.error with
  | some e => .failure (handleError e)
  | none =>
      match resp.session with
      | some sess => .success (mapTokens sess)
      | none => .failure { code := "NO_SESSION", message := "Token refresh failed" }

/-! ### The outbound API client (lib/api/apiClient.ts) -/

/-- The request config fields the interceptor touches. -/
structure RequestConfig where
  authorizationHeader : Option String := none
  deriving Repr, DecidableEq

/-- The module-level mutable state of apiClient.ts is the single variable
`authTokenGetter`.  For counting purposes the getter is embedded as the
token it resolves to, plus an invocation counter threaded through the
runs; there is no cache and no pending-fetch handle in the module. -/
structure ApiClientState where
  authTokenGetter : Option (Option String)
  getterInvocations : Nat
  deriving Repr, DecidableEq

/-- The request interceptor (apiClient.ts lines 28–39): if a getter is
registered it is invoked (awaited) for this request, and a non-null token
is attached as a Bearer header.  Every request performs its own getter
call; nothing is shared between overlapping requests. -/
def interceptRequest (st : ApiClientState) (cfg : RequestConfig) :
    ApiClientState × RequestConfig :=
  match st.authTokenGetter with
  | none => (st, cfg)
  | some tok =>
      let st' := { st with getterInvocations := st.getterInvocations + 1 }
      match tok with
      | some t => (st', { cfg with authorizationHeader := some ("Bearer " ++ t) })
      | none => (st', cfg)

/-- `n` overlapping requests through the interceptor: each one runs its own
`interceptRequest` against the shared module state. -/
def runRequests (st : ApiClientState) (n : Nat) : ApiClientState :=
  match n with
  | 0 => st
  | n + 1 => runRequests (interceptRequest st {}).1 n

/-! ### Reachable session states

Every `setState` call in AuthContext.tsx is one of the handlers embedded
above.  An execution of the provider is a sequence of such events applied
to the initial state. -/

/-- One `setState`-producing event of the Session Manager: the mount-time
restore, the pre-await `isLoading=true` step of login/signup/logout, the
settling of each operation with its port result, and an
`onAuthStateChange` notification. -/
inductive AuthEvent where
  | restore (r : AuthResult (Option RestorePayload))
  | opStart
  | loginDone (r : AuthResult SessionPayload)
  | signupDone (r : AuthResult SessionPayload)
  | logoutDone (r : AuthResult Unit)
  | refreshDone (r : AuthResult (Option User))
  | authChange (u : Option User) (t : Option AuthTokens)

/-- Apply one event to the stored state, using the embedded handlers. -/
def applyEvent (s : AuthState) (ev : AuthEvent) : AuthState :=
  match ev with
  | .restore r => restoreSettle r
  | .opStart => setLoading true s
  | .loginDone r => (loginSettle s r).1
  | .signupDone r => (signupSettle s r).1
  | .logoutDone r => logoutSettle s r
  | .refreshDone r => refreshAuthOp s r
  | .authChange u t => authChangeSettle u t

/-- The state reached from the initial state by a sequence of events. -/
def runEvents (evs : List AuthEvent) : AuthState :=
  evs.foldl applyEvent initialState

/-- Two overlapping `login` calls under JavaScript's cooperative
scheduling: each call's pre-await step runs, then each settles with its
own port result in completion order.  Returns the final state and the two
values returned to the callers. -/
def doubleLoginRun (s : AuthState) (r1 r2 : AuthResult SessionPayload) :
    AuthState × OpReturn × OpReturn :=
  let s1 := setLoading true s
  let s2 := setLoading true s1
  let p1 := loginSettle s2 r1
  let p2 := loginSettle p1.1 r2
  (p2.1, p1.2, p2.2)

/-- The error code of a failed result (`none` on success). -/
def failureCode {α : Type} : AuthResult α → Option String
  | .success _ => none
  | .failure e => some e.code

/-! ### Concrete demonstration values -/

/-- A demonstration user. -/
def alice : User :=
  { id := "user-1", email := "a@b.com", emailVerified := true }

/-- A second demonstration user, distinct from `alice`. -/
def bob : User :=
  { id := "user-2", email := "c@d.com", emailVerified := true }

/-- A demonstration token pair. -/
def demoTokens : AuthTokens :=
  { accessToken := "tok-1", refreshToken := some "ref-1", expiresAt := some 1000 }

/-- A second demonstration token pair. -/
def demoTokens2 : AuthTokens :=
  { accessToken := "tok-2", refreshToken := some "ref-2", expiresAt := some 2000 }

/-- The anonymous, settled state. -/
def anonState : AuthState :=
  { user := none, tokens := none, isLoading := false, isAuthenticated := false }

/-- A demonstration Supabase user whose email is not yet confirmed. -/
def pendingSupabaseUser : SupabaseUser :=
  { id := "user-1", email := "a@b.com", email_confirmed_at := .jsNull }

/-! ## Claim theorems -/

/-- C1 (counterexample): a port-level signup result that is a success
carrying empty tokens does NOT leave the Session Manager Anonymous — the
success branch of `AuthProvider.signup` marks the state Authenticated
(`isAuthenticated = true`, `user` set) without inspecting the tokens. -/
theorem C1_success_empty_tokens_authenticates :
    (signupOp anonState (.success { user := alice, tokens := none })).1.isAuthenticated = true ∧
    (signupOp anonState (.success { user := alice, tokens := none })).1.user = some alice := by
  exact ⟨rfl, rfl⟩

/-- C1 (amended): the Session Manager's signup marks the state
Authenticated on every successful port result, tokens copied verbatim
(empty or not); in the actual pipeline a verification-pending signup
reaches it as the `NO_SESSION` failure produced by the Supabase port, and
on a failure the stored identity and tokens are unchanged (an Anonymous
state stays Anonymous) with the failure's message surfaced to the
caller. -/
theorem C1_pending_signup_amended (s : AuthState) (u : User)
    (ot : Option AuthTokens) (su : SupabaseUser) (e : AuthError) :
    (signupOp s (.success { user := u, tokens := ot })).1 =
      { user := some u, tokens := ot, isLoading := false, isAuthenticated := true } ∧
    supabaseSignup { user := some su, session := none, error := none } =
      .failure { code := "NO_SESSION",
                 message := "Signup succeeded but no session. Check email for verification." } ∧
    (signupOp s (.failure e)).1 = { s with isLoading := false } ∧
    (signupOp s (.failure e)).2 = { success := false, error := some e.message } := by
  exact ⟨rfl, rfl, rfl, rfl⟩

/-- C2 (code bug): two `login` calls overlapping under the cooperative
scheduler are not serialized and neither is rejected — both callers get
`{success: true}`, both settle steps apply an Authenticated transition,
and no `OperationInProgress` kind exists anywhere in the code.  The claim
says the second call must wait or be rejected so that exactly one
successful transition occurs. -/
theorem C2_double_login_races :
    (doubleLoginRun anonState (.success { user := alice, tokens := some demoTokens })
        (.success { user := bob, tokens := some demoTokens2 })).2.1 =
      { success := true, error := none } ∧
    (doubleLoginRun anonState (.success { user := alice, tokens := some demoTokens })
        (.success { user := bob, tokens := some demoTokens2 })).2.2 =
      { success := true, error := none } ∧
    (loginSettle (setLoading true (setLoading true anonState))
        (.success { user := alice, tokens := some demoTokens })).1 =
      { user := some alice, tokens := some demoTokens,
        isLoading := false, isAuthenticated := true } ∧
    (doubleLoginRun anonState (.success { user := alice, tokens := some demoTokens })
        (.success { user := bob, tokens := some demoTokens2 })).1 =
      { user := some bob, tokens := some demoTokens2,
        isLoading := false, isAuthenticated := true } := by
  exact ⟨rfl, rfl, rfl, rfl⟩

/-- C3 (counterexample): on a successful port result the refresh operation
(`AuthProvider.refreshAuth`) replaces the stored identity and leaves the
stored tokens as they were — the opposite of the claimed
"replaces only the TokenPair, identity unchanged". -/
theorem C3_refresh_swaps_identity_not_tokens :
    (refreshAuthOp
        { user := some alice, tokens := some demoTokens,
          isLoading := false, isAuthenticated := true }
        (.success (some bob))).user = some bob ∧
    some bob ≠ some alice ∧
    (refreshAuthOp
        { user := some alice, tokens := some demoTokens,
          isLoading := false, isAuthenticated := true }
        (.success (some bob))).tokens = some demoTokens := by
  refine ⟨rfl, ?_, rfl⟩
  decide

/-- C3 (amended): the refresh operation consumes a `getCurrentUser` port
result, not a `refreshToken` one; on success with a user present it
replaces only the stored identity (tokens unchanged) and sets
authenticated; on failure, or success with no user, it leaves the entire
state exactly as it was.  Nothing is returned to the caller. -/
theorem C3_refresh_amended (s : AuthState) (u : User) (e : AuthError) :
    refreshAuthOp s (.success (some u)) = { s with user := some u, isAuthenticated := true } ∧
    refreshAuthOp s (.success none) = s ∧
    refreshAuthOp s (.failure e) = s := by
  exact ⟨rfl, rfl, rfl⟩

/-- C4: for every state and every port logout result (success or any
failure kind), `AuthProvider.logout` ends with identity null, tokens
null, authenticated false and loading false. -/
theorem C4_logout_always_clears (s : AuthState) (r : AuthResult Unit) :
    logoutOp s r =
      { user := none, tokens := none, isLoading := false, isAuthenticated := false } := by
  rfl

/-- C5: for every failed login or signup, the stored identity and tokens
after the call equal their pre-call values, loading is false afterwards,
and only the failure's message is returned to the caller. -/
theorem C5_failure_preserves_state (s : AuthState) (e : AuthError) :
    (loginOp s (.failure e)).1.user = s.user ∧
    (loginOp s (.failure e)).1.tokens = s.tokens ∧
    (loginOp s (.failure e)).1.isLoading = false ∧
    (loginOp s (.failure e)).2 = { success := false, error := some e.message } ∧
    (signupOp s (.failure e)).1.user = s.user ∧
    (signupOp s (.failure e)).1.tokens = s.tokens ∧
    (signupOp s (.failure e)).1.isLoading = false ∧
    (signupOp s (.failure e)).2 = { success := false, error := some e.message } := by
  exact ⟨rfl, rfl, rfl, rfl, rfl, rfl, rfl, rfl⟩

/-- C6 (counterexample): a rejected login whose provider error carries
HTTP status 400 is returned with the raw status string `"400"` as its
kind, which is none of the six taxonomy kinds — a raw provider-specific
value crosses the port boundary. -/
theorem C6_raw_status_as_kind :
    supabaseLogin
        { user := none, session := none,
          error := some (.objWithMessage (some 400) "Invalid login credentials") } =
      .failure { code := "400", message := "Invalid login credentials" } ∧
    "400" ∉ ["InvalidCredentials", "EmailUnverified", "NoSession",
      "OperationInProgress", "ProviderUnavailable", "Unknown"] := by
  refine ⟨rfl, ?_⟩
  decide

/-- C6 (amended): every failure produced by `handleError` carries either
the code `"UNKNOWN"` or the decimal string of the provider error's raw
HTTP status, and every rejected login carries one of those codes or the
adapter-made `"NO_SESSION"`; the spec's taxonomy kinds are never
produced. -/
theorem C6_error_codes_amended (e : JsCaught) (resp : SupabaseAuthResponse) :
    ((handleError e).code = "UNKNOWN" ∨
      ∃ n : Nat, (handleError e).code = toString n ∧
        e = .objWithMessage (some n) (handleError e).message) ∧
    (failureCode (supabaseLogin resp) = none ∨
      failureCode (supabaseLogin resp) = some "NO_SESSION" ∨
      ∃ ec, resp.error = some ec ∧
        failureCode (supabaseLogin resp) = some (handleError ec).code) := by
  constructor
  · cases e with
    | objWithMessage st msg =>
        cases st with
        | none => exact Or.inl rfl
        | some n => exact Or.inr ⟨n, rfl, rfl⟩
    | errInstance msg => exact Or.inl rfl
    | nonObject => exact Or.inl rfl
  · rcases resp with ⟨u, sess, err⟩
    cases err with
    | some ec => exact Or.inr (Or.inr ⟨ec, rfl, rfl⟩)
    | none =>
        cases sess with
        | none => exact Or.inr (Or.inl rfl)
        | some s0 =>
            cases u with
            | none => exact Or.inr (Or.inl rfl)
            | some u0 => exact Or.inl rfl

/-- C7 (counterexample): a verification-pending signup (provider returns a
user but no session and no error) yields a FAILURE result from the port,
not a success with no tokens. -/
theorem C7_pending_signup_is_failure :
    supabaseSignup { user := some pendingSupabaseUser, session := none, error := none } =
      .failure { code := "NO_SESSION",
                 message := "Signup succeeded but no session. Check email for verification." } := by
  rfl

/-- C7 (amended): when the provider requires email verification before
activation (signup response with no session and no error), the port's
signup returns a failure result with code `"NO_SESSION"` and the message
"Signup succeeded but no session. Check email for verification." — the
caller must interpret that failure, not a tokenless success. -/
theorem C7_pending_signup_amended (su : SupabaseUser) (ou : Option SupabaseUser) :
    supabaseSignup { user := some su, session := none, error := none } =
      .failure { code := "NO_SESSION",
                 message := "Signup succeeded but no session. Check email for verification." } ∧
    supabaseSignup { user := ou, session := none, error := none } =
      .failure { code := "NO_SESSION",
                 message := "Signup succeeded but no session. Check email for verification." } := by
  constructor
  · rfl
  · cases ou <;> rfl

/-- C8 (code bug): the API client's request interceptor invokes the
registered token getter once per request — two overlapping requests with
no cached token (the module holds no cache and no pending handle at all)
trigger two underlying fetches, not the claimed single coalesced one. -/
theorem C8_each_request_fetches :
    (runRequests { authTokenGetter := some (some "tok-1"), getterInvocations := 0 }
      2).getterInvocations = 2 ∧
    (runRequests { authTokenGetter := some (some "tok-1"), getterInvocations := 0 }
      1).getterInvocations = 1 := by
  exact ⟨rfl, rfl⟩

/-- Helper: each Session Manager event preserves
`isAuthenticated = user.isSome`. -/
theorem authFlag_step (s : AuthState) (ev : AuthEvent)
    (h : s.isAuthenticated = s.user.isSome) :
    (applyEvent s ev).isAuthenticated = (applyEvent s ev).user.isSome := by
  cases ev with
  | restore r =>
      cases r with
      | success d => cases d <;> rfl
      | failure e => rfl
  | opStart => exact h
  | loginDone r =>
      cases r with
      | success d => rfl
      | failure e => exact h
  | signupDone r =>
      cases r with
      | success d => rfl
      | failure e => exact h
  | logoutDone r => rfl
  | refreshDone r =>
      cases r with
      | success ou =>
          cases ou with
          | some u => rfl
          | none => exact h
      | failure e => exact h
  | authChange u t => rfl

/-- Helper: the flag/identity agreement is preserved along any event
sequence. -/
theorem authFlag_run (s : AuthState) (evs : List AuthEvent)
    (h : s.isAuthenticated = s.user.isSome) :
    (evs.foldl applyEvent s).isAuthenticated = (evs.foldl applyEvent s).user.isSome := by
  induction evs generalizing s with
  | nil => exact h
  | cons ev tl ih => exact ih _ (authFlag_step s ev h)

/-- C9: in every reachable session state — the initial state and after any
sequence of restore, login, signup, logout, refresh and state-change
events — the authenticated flag is true iff the stored identity is
present. -/
theorem C9_authenticated_iff_identity (evs : List AuthEvent) :
    (runEvents evs).isAuthenticated = true ↔ (runEvents evs).user ≠ none := by
  have h : (runEvents evs).isAuthenticated = ((runEvents evs).user).isSome :=
    authFlag_run initialState evs rfl
  rw [h]
  exact Option.isSome_iff_ne_none

/-- C10: `mapUser` computes `emailVerified` as the strict comparison
`email_confirmed_at !== null`, so a provider user whose
`email_confirmed_at` property is absent (`undefined`) maps to
`emailVerified = true`. -/
theorem C10_absent_confirmed_at_verified (su : SupabaseUser) :
    (mapUser su).emailVerified = jsStrictNeNull su.email_confirmed_at ∧
    (mapUser { su with email_confirmed_at := .undef }).emailVerified = true := by
  exact ⟨rfl, rfl⟩

end SupabaseAuth
